import Mathlib

/-!
# Verification of the automate-pr GitHub auth core

Shallow embedding of the OAuth2 device-flow client and token lifecycle
manager of the `automate-pr` repository:

* `TokenManager` (`packages/core/src/auth/token-manager.ts`):
  `getToken`, `storeToken`, `executeRequest`, `getStoredTokenInfo`,
  `shouldRefreshToken`, `refreshToken`, `waitForRateLimit`,
  `isRateLimitError`, `isAuthError`.
* `GitHubDeviceFlow` (`packages/core/src/auth/github-device-flow.ts`):
  `initiate`, `poll`, `revoke`.

Conventions of the embedding:

* JS timestamps and millisecond quantities are `Int` (JS numbers used
  integrally); `Date.now()` becomes an explicit `now` parameter or a clock
  field threaded through the state.
* JS `undefined`-able fields are `Option _`; JS truthiness tests on them
  (`expiresIn && …`, `!tokenInfo?.refresh_token`, `!data`) are modelled by
  `jsTruthyInt` / `jsTruthyStr`, so `0` and `""` count as absent exactly as
  in the source.
* `JSON.parse` is abstracted as an explicit `parse : String → Option TokenInfo`
  argument; `parse s = none` models a thrown parse error (the `catch` in
  `getStoredTokenInfo` returns `undefined`).
* `fetch` responses are supplied by the caller as explicit data
  (`Except`/`Option` values or response sequences); the number of network
  calls actually issued is returned in the output so claims about call
  counts can be stated.
-/

namespace AutomatePR

/-- JS truthiness of a `number | undefined` value: `undefined` and `0` are
falsy (`NaN` is not modelled). -/
def jsTruthyInt : Option Int → Bool
  | none => false
  | some n => n != 0

/-- JS truthiness of a `string | undefined` value: `undefined` and `""` are
falsy. -/
def jsTruthyStr : Option String → Bool
  | none => false
  | some s => s != ""

/-- `TokenInfo` from `token-manager.ts`: the persisted token record. -/
structure TokenInfo where
  access_token : String
  expires_at : Option Int := none
  refresh_token : Option String := none
deriving Repr, DecidableEq

/-- `RateLimitInfo` from `token-manager.ts` (`reset` is in seconds). -/
structure RateLimitInfo where
  limit : Int
  remaining : Int
  reset : Int
deriving Repr, DecidableEq

/-- Errors observable from the embedded methods.  `pr msg typ` is
`new PRAutomatorError(msg, { type: typ })`; `js e` is a rethrown plain JS
error (`JsError` below). -/
structure JsError where
  status : Option Int := none
  msg : String := ""
deriving Repr, DecidableEq

inductive TMErr where
  | pr (msg : String) (typ : String)
  | js (e : JsError)
deriving Repr, DecidableEq

/-- `TokenManager.MIN_TOKEN_LIFETIME = 5 * 60 * 1000`. -/
def MIN_TOKEN_LIFETIME : Int := 5 * 60 * 1000

/-- `TokenManager.DEFAULT_BACKOFF = 1000`. -/
def DEFAULT_BACKOFF : Int := 1000

/-- `TokenManager.storeToken`: builds the record that is serialized into the
vault.  The conditional spreads `...(expiresIn && {expires_at: …})` and
`...(refreshToken && {refresh_token: refreshToken})` drop the field whenever
the argument is JS-falsy (absent, `0`, `""`). -/
def storeToken (now : Int) (accessToken : String) (expiresIn : Option Int)
    (refreshToken : Option String) : TokenInfo :=
  { access_token := accessToken
    expires_at :=
      if jsTruthyInt expiresIn then some (now + expiresIn.getD 0 * 1000) else none
    refresh_token :=
      if jsTruthyStr refreshToken then refreshToken else none }

/-- `TokenManager.getStoredTokenInfo`: `vault.get` yields `data`; `!data`
(absent or `""`) gives `undefined`; otherwise `JSON.parse(data)` is attempted
and a parse error is caught to `undefined`. -/
def getStoredTokenInfo (parse : String → Option TokenInfo) :
    Option String → Option TokenInfo
  | none => none
  | some data => if data = "" then none else parse data

/-- `TokenManager.shouldRefreshToken`: `false` when `expires_at` is JS-falsy
(absent or `0`); otherwise `Date.now() + MIN_TOKEN_LIFETIME > expires_at`. -/
def shouldRefreshToken (now : Int) (tokenInfo : TokenInfo) : Bool :=
  if jsTruthyInt tokenInfo.expires_at then
    decide (now + MIN_TOKEN_LIFETIME > tokenInfo.expires_at.getD 0)
  else false

/-- Body of a successful refresh response from
`POST https://github.com/login/oauth/access_token`. -/
structure RefreshData where
  access_token : String
  expires_in : Option Int := none
  refresh_token : Option String := none
deriving Repr, DecidableEq

deriving instance DecidableEq for Except

/-- Output of `getToken`/`refreshToken`: the returned value or error, the
record written to the vault by `storeToken` (if any), and how many network
refresh calls were issued. -/
structure GetTokenOut where
  result : Except TMErr String
  stored : Option TokenInfo
  refreshCalls : Nat
deriving Repr, DecidableEq

/-- `TokenManager.refreshToken`: `tokenInfoArg` is the optional `tokenInfo`
parameter; when absent the vault is re-read.  Without a truthy
`refresh_token` it throws `AUTH_ERROR "No refresh token available"` with no
network call; otherwise one network call is made (`refreshResp` is its
outcome, `.error ()` covering both transport failure and `!response.ok`) and
failure is wrapped as `AUTH_ERROR "Failed to refresh token"`. -/
def refreshToken (parse : String → Option TokenInfo)
    (refreshResp : Except Unit RefreshData) (now : Int)
    (vaultData : Option String) (tokenInfoArg : Option TokenInfo) : GetTokenOut :=
  let tokenInfo :=
    match tokenInfoArg with
    | some ti => some ti
    | none => getStoredTokenInfo parse vaultData
  match tokenInfo with
  | none => ⟨.error (.pr "No refresh token available" "AUTH_ERROR"), none, 0⟩
  | some ti =>
    if jsTruthyStr ti.refresh_token then
      match refreshResp with
      | .ok data =>
        ⟨.ok data.access_token,
          some (storeToken now data.access_token data.expires_in data.refresh_token), 1⟩
      | .error _ => ⟨.error (.pr "Failed to refresh token" "AUTH_ERROR"), none, 1⟩
    else
      ⟨.error (.pr "No refresh token available" "AUTH_ERROR"), none, 0⟩

/-- `TokenManager.getToken`: no stored record throws
`AUTH_ERROR "No token available"`; a record inside the refresh window is
handed to `refreshToken`; otherwise the stored `access_token` is returned
unchanged, with no network call. -/
def getToken (parse : String → Option TokenInfo)
    (refreshResp : Except Unit RefreshData) (now : Int)
    (vaultData : Option String) : GetTokenOut :=
  match getStoredTokenInfo parse vaultData with
  | none => ⟨.error (.pr "No token available" "AUTH_ERROR"), none, 0⟩
  | some tokenInfo =>
    if shouldRefreshToken now tokenInfo then
      refreshToken parse refreshResp now vaultData (some tokenInfo)
    else
      ⟨.ok tokenInfo.access_token, none, 0⟩

end AutomatePR

namespace AutomatePR

/-- C9: a vault value under the token key that fails to parse is treated
exactly like an absent record: `getToken` raises the no-token
`AUTH_ERROR "No token available"` instead of propagating a parse error. -/
theorem getToken_corrupted_record_as_no_token
    (parse : String → Option TokenInfo) (s : String)
    (refreshResp : Except Unit RefreshData) (now : Int)
    (hparse : parse s = none) :
    getToken parse refreshResp now (some s) = getToken parse refreshResp now none
    ∧ (getToken parse refreshResp now (some s)).result
        = .error (.pr "No token available" "AUTH_ERROR") := by
  constructor <;>
  · simp only [getToken, getStoredTokenInfo]
    split_ifs <;> simp [hparse]

theorem getToken_corrupted_record_as_no_token_witness :
    getToken (fun _ => none) (.error ()) 0 (some "not-json")
      = getToken (fun _ => none) (.error ()) 0 none
    ∧ (getToken (fun _ => none) (.error ()) 0 (some "not-json")).result
        = .error (.pr "No token available" "AUTH_ERROR") :=
  getToken_corrupted_record_as_no_token (fun _ => none) "not-json" (.error ()) 0 rfl

/-- C10: `storeToken(accessToken, 0, refreshToken)` persists a record with no
`expires_at` field (`0` is JS-falsy in the conditional spread), so the token
is treated as non-expiring and any later `getToken` returns it unchanged
with zero refresh network calls. -/
theorem storeToken_zero_expiresIn_never_refreshes
    (now later : Int) (accessToken : String) (refreshTok : Option String)
    (parse : String → Option TokenInfo) (s : String)
    (refreshResp : Except Unit RefreshData)
    (hs : ¬ s = "")
    (hparse : parse s = some (storeToken now accessToken (some 0) refreshTok)) :
    (storeToken now accessToken (some 0) refreshTok).expires_at = none
    ∧ getToken parse refreshResp later (some s) = ⟨.ok accessToken, none, 0⟩ := by
  refine ⟨by simp [storeToken, jsTruthyInt], ?_⟩
  simp [getToken, getStoredTokenInfo, hs, hparse, shouldRefreshToken, storeToken,
    jsTruthyInt]

theorem storeToken_zero_expiresIn_never_refreshes_witness :
    (storeToken 5 "tok" (some 0) (some "r")).expires_at = none
    ∧ getToken (fun _ => some (storeToken 5 "tok" (some 0) (some "r")))
        (.error ()) 999999999 (some "rec") = ⟨.ok "tok", none, 0⟩ :=
  storeToken_zero_expiresIn_never_refreshes 5 999999999 "tok" (some "r")
    (fun _ => some (storeToken 5 "tok" (some 0) (some "r"))) "rec" (.error ())
    (by decide) rfl

end AutomatePR

namespace AutomatePR

/-! ## `GitHubDeviceFlow` (`packages/core/src/auth/github-device-flow.ts`) -/

/-- One token-endpoint response as `poll` sees it: `success tok` is
`response.ok` with body `{access_token: tok, …}`; `errBody e desc st` is
`!response.ok` with JSON body `{error: e, error_description: desc}` and
`response.statusText = st`. -/
inductive PollResponse where
  | success (access_token : String)
  | errBody (error : String) (error_description : Option String)
      (statusText : String)
deriving Repr, DecidableEq

/-- `poll`'s outcome: the returned token, a thrown
`PRAutomatorError("auth", msg)`, or exhaustion of the model's fuel (the
source loop can spin without progress, see `pollLoop`). -/
inductive PollResult where
  | token (access_token : String)
  | authError (msg : String)
  | fuelOut
deriving Repr, DecidableEq

/-- Observable outcome of `poll`: result, number of token-endpoint POSTs
issued, total milliseconds slept, the final `pollInterval`, and the secret
written by `vault.setSecret("github_token", …)` (if any). -/
structure PollOut where
  result : PollResult
  requests : Nat
  slept : Int
  interval : Int
  stored : Option String
deriving Repr, DecidableEq

/-- JS `a || b` on `string | undefined` (`error.error_description ||
response.statusText`). -/
def jsOrStr (a : Option String) (b : String) : String :=
  if jsTruthyStr a then a.getD "" else b

/-- The `while (attempts < this.maxAttempts)` loop of
`GitHubDeviceFlow.poll` in `github-device-flow.ts`.  `responses n` is the
`n`-th token-endpoint response.  Each iteration: a non-ok response with
`error === "authorization_pending"` sleeps `pollInterval` and increments
`attempts`; any other non-ok response throws, and the `catch` rethrows it
wrapped (`"Failed to obtain access token: …"`) only when
`attempts === maxAttempts - 1`, otherwise swallows it and loops again with
`attempts` unchanged and no sleep; an ok response stores the token and
returns it.  `fuel` bounds the recursion (the source loop has no such bound
and can re-request indefinitely on repeated terminal errors). -/
def pollLoop (responses : Nat → PollResponse) (maxAttempts : Nat)
    (interval : Int) : Nat → Nat → Nat → Int → PollOut
  | 0, _, requests, slept => ⟨.fuelOut, requests, slept, interval, none⟩
  | fuel + 1, attempts, requests, slept =>
    if attempts < maxAttempts then
      match responses requests with
      | .success tok => ⟨.token tok, requests + 1, slept, interval, some tok⟩
      | .errBody e desc statusText =>
        if e = "authorization_pending" then
          pollLoop responses maxAttempts interval fuel (attempts + 1)
            (requests + 1) (slept + interval)
        else if attempts = maxAttempts - 1 then
          ⟨.authError ("Failed to obtain access token: " ++ jsOrStr desc statusText),
            requests + 1, slept, interval, none⟩
        else
          pollLoop responses maxAttempts interval fuel attempts (requests + 1) slept
    else
      ⟨.authError "Max polling attempts reached. Please try again.",
        requests, slept, interval, none⟩

/-- Fields of `GitHubDeviceFlow` relevant to `poll`, as set by the
constructor and by `initiate` (`pollInterval = 5000`, `maxAttempts = 12`
initially). -/
structure FlowState where
  deviceCode : Option String
  pollInterval : Int := 5000
  maxAttempts : Nat := 12
  expiresAt : Option Int := none
deriving Repr, DecidableEq

/-- `GitHubDeviceFlow.initiate` (ok case): stores `device_code`, sets
`pollInterval = interval * 1000` and `expiresAt = now + expires_in * 1000`,
and returns `{verification_uri, user_code}`. -/
def initiate (now : Int) (device_code user_code verification_uri : String)
    (expires_in interval : Int) : FlowState × String × String :=
  (⟨some device_code, interval * 1000, 12, some (now + expires_in * 1000)⟩,
    verification_uri, user_code)

/-- `GitHubDeviceFlow.poll`: the entry guards (`!this.deviceCode`,
expired device code) followed by `pollLoop`. -/
def poll (responses : Nat → PollResponse) (st : FlowState) (now : Int)
    (fuel : Nat) : PollOut :=
  if ¬ jsTruthyStr st.deviceCode then
    ⟨.authError "Device flow not initiated. Call initiate() first.",
      0, 0, st.pollInterval, none⟩
  else if (match st.expiresAt with | some e => decide (now > e) | none => false) then
    ⟨.authError "Device code has expired. Please initiate a new flow.",
      0, 0, st.pollInterval, none⟩
  else
    pollLoop responses st.maxAttempts st.pollInterval fuel 0 0 0

/-- Does a response carry `error: "authorization_pending"`? -/
def isAuthPending : PollResponse → Bool
  | .errBody e _ _ => e = "authorization_pending"
  | .success _ => false

end AutomatePR

namespace AutomatePR

/-- Helper: under always-`authorization_pending` responses, the loop polls
once per remaining attempt, sleeps `interval` each time, and ends with the
max-attempts failure. -/
theorem pollLoop_pending_eq (responses : Nat → PollResponse) (maxA : Nat)
    (interval : Int) (hp : ∀ n, isAuthPending (responses n) = true) :
    ∀ (f a r : Nat) (s : Int), maxA - a < f →
    pollLoop responses maxA interval f a r s
      = ⟨.authError "Max polling attempts reached. Please try again.",
          r + (maxA - a), s + (maxA - a : Nat) * interval, interval, none⟩ := by
  intro f
  induction f with
  | zero => intro a r s h; omega
  | succ f ih =>
    intro a r s h
    by_cases ha : a < maxA
    · have hresp := hp r
      rcases hr : responses r with tok | ⟨e, desc, stx⟩
      · rw [hr] at hresp; simp [isAuthPending] at hresp
      · rw [hr] at hresp
        simp only [isAuthPending, decide_eq_true_eq] at hresp
        subst hresp
        have step :
            pollLoop responses maxA interval (f + 1) a r s
              = pollLoop responses maxA interval f (a + 1) (r + 1) (s + interval) := by
          simp [pollLoop, ha, hr]
        rw [step, ih (a + 1) (r + 1) (s + interval) (by omega)]
        have hk : maxA - a = (maxA - (a + 1)) + 1 := by omega
        simp only [PollOut.mk.injEq, true_and, and_true]
        constructor
        · omega
        · rw [hk]; push_cast; ring
    · have hk : maxA - a = 0 := by omega
      simp [pollLoop, ha, hk]

/-- C5: after `initiate` with `expires_in = 900`, `interval = 5`, if every
token-endpoint response is `authorization_pending`, `poll` issues exactly
`maxAttempts = 12` polling iterations (12 requests, sleeping 5000 ms each),
fails with the max-attempts auth error, and the total wait of 60000 ms ends
well before `initiate_time + expires_in`. -/
theorem poll_always_pending_times_out (responses : Nat → PollResponse)
    (hp : ∀ n, isAuthPending (responses n) = true)
    (t0 : Int) (dc uc vu : String) (hdc : ¬ dc = "") (fuel : Nat)
    (hf : 12 < fuel) :
    poll responses (initiate t0 dc uc vu 900 5).1 t0 fuel
      = ⟨.authError "Max polling attempts reached. Please try again.",
          12, 60000, 5000, none⟩
    ∧ t0 + (poll responses (initiate t0 dc uc vu 900 5).1 t0 fuel).slept
        ≤ t0 + 900 * 1000 := by
  have hguard : ¬ t0 > t0 + 900 * 1000 := by omega
  have hrun :
      poll responses (initiate t0 dc uc vu 900 5).1 t0 fuel
        = ⟨.authError "Max polling attempts reached. Please try again.",
            12, 60000, 5000, none⟩ := by
    have := pollLoop_pending_eq responses 12 5000 hp fuel 0 0 0 (by omega)
    simp only [poll, initiate, jsTruthyStr]
    rw [if_neg (by simp [hdc]), if_neg (by simp [hguard])]
    simpa using this
  exact ⟨hrun, by rw [hrun]; simp⟩

theorem poll_always_pending_times_out_witness :
    poll (fun _ => .errBody "authorization_pending" none "Forbidden")
        (initiate 0 "d1" "U1" "https://x/device" 900 5).1 0 13
      = ⟨.authError "Max polling attempts reached. Please try again.",
          12, 60000, 5000, none⟩
    ∧ (0 : Int) + (poll (fun _ => .errBody "authorization_pending" none "Forbidden")
        (initiate 0 "d1" "U1" "https://x/device" 900 5).1 0 13).slept
        ≤ 0 + 900 * 1000 :=
  poll_always_pending_times_out (fun _ => .errBody "authorization_pending" none "Forbidden")
    (fun _ => rfl) 0 "d1" "U1" "https://x/device" (by decide) 13 (by decide)

end AutomatePR

namespace AutomatePR

/-- Response sequence refuting C3: `access_denied` first, then
`authorization_pending` forever. -/
def deniedThenPending : Nat → PollResponse
  | 0 => .errBody "access_denied" (some "The user denied the request") "Forbidden"
  | _ + 1 => .errBody "authorization_pending" none "Forbidden"

/-- C3 counterexample: after a terminal `access_denied` response, `poll` does
NOT stop — it swallows the error and issues 12 further token-endpoint
requests (13 in total), ending in the max-attempts failure, never in a
DENIED-style immediate error. -/
theorem poll_denied_keeps_polling_counterexample :
    poll deniedThenPending ⟨some "d1", 5000, 12, some 900000⟩ 0 20
      = ⟨.authError "Max polling attempts reached. Please try again.",
          13, 60000, 5000, none⟩ := by decide

/-- C3 amended: a non-`authorization_pending` error response is thrown and
immediately caught by the loop's own `catch`: at `attempts = maxAttempts - 1`
it surfaces wrapped as `"Failed to obtain access token: …"`, and at any
earlier `attempts` it is swallowed — the loop issues the next token-endpoint
request at once, with `attempts` unchanged and no sleep. -/
theorem pollLoop_terminal_error_swallowed (responses : Nat → PollResponse)
    (maxA : Nat) (interval : Int) (f a r f2 r2 : Nat) (s s2 : Int)
    (e e2 : String) (desc desc2 : Option String) (stx stx2 : String)
    (hresp : responses r = .errBody e desc stx)
    (he : ¬ e = "authorization_pending")
    (ha : a < maxA - 1)
    (hresp2 : responses r2 = .errBody e2 desc2 stx2)
    (he2 : ¬ e2 = "authorization_pending")
    (hm : 0 < maxA) :
    pollLoop responses maxA interval (f + 1) a r s
      = pollLoop responses maxA interval f a (r + 1) s
    ∧ pollLoop responses maxA interval (f2 + 1) (maxA - 1) r2 s2
      = ⟨.authError ("Failed to obtain access token: " ++ jsOrStr desc2 stx2),
          r2 + 1, s2, interval, none⟩ := by
  constructor
  · have ha' : a < maxA := by omega
    have hne : ¬ a = maxA - 1 := by omega
    simp [pollLoop, ha', hresp, he, hne]
  · have ha' : maxA - 1 < maxA := by omega
    simp [pollLoop, ha', hresp2, he2]

theorem pollLoop_terminal_error_swallowed_witness :
    pollLoop deniedThenPending 12 5000 (4 + 1) 0 0 0
      = pollLoop deniedThenPending 12 5000 4 0 1 0
    ∧ pollLoop deniedThenPending 12 5000 (4 + 1) (12 - 1) 0 0
      = ⟨.authError ("Failed to obtain access token: "
          ++ jsOrStr (some "The user denied the request") "Forbidden"),
          1, 0, 5000, none⟩ :=
  pollLoop_terminal_error_swallowed deniedThenPending 12 5000 4 0 0 4 0 0 0
    "access_denied" "access_denied"
    (some "The user denied the request") (some "The user denied the request")
    "Forbidden" "Forbidden" rfl (by decide) (by decide) rfl (by decide) (by decide)

/-- Response sequence refuting C4: eleven `authorization_pending` responses,
then `slow_down` at the final attempt. -/
def pendingThenSlowDown : Nat → PollResponse
  | n =>
    if n < 11 then .errBody "authorization_pending" none "Forbidden"
    else .errBody "slow_down" (some "slow down") "Forbidden"

/-- C4 counterexample: `slow_down` is not special-cased by `poll`.  First
run: every response is `slow_down`; the loop re-requests with NO sleep and
NO interval increase (interval still 5000 after 7 requests, 0 ms slept).
Second run: a `slow_down` arriving at `attempts = maxAttempts - 1` IS
surfaced as the polling failure. -/
theorem poll_slow_down_counterexample :
    poll (fun _ => .errBody "slow_down" (some "slow down") "Forbidden")
        ⟨some "d1", 5000, 12, some 900000⟩ 0 7
      = ⟨.fuelOut, 7, 0, 5000, none⟩
    ∧ poll pendingThenSlowDown ⟨some "d1", 5000, 12, some 900000⟩ 0 20
      = ⟨.authError "Failed to obtain access token: slow down",
          12, 55000, 5000, none⟩ := by
  constructor <;> decide

/-- C4 amended: a `slow_down` response is handled like any terminal error,
not as a pending state: before the last attempt it is swallowed and the loop
re-requests immediately — same `attempts`, no sleep, `pollInterval`
unchanged — and at `attempts = maxAttempts - 1` it surfaces as the polling
failure; `pollLoop` never returns an increased interval. -/
theorem pollLoop_slow_down_not_special (responses : Nat → PollResponse)
    (maxA : Nat) (interval : Int) (f a r f2 r2 : Nat) (s s2 : Int)
    (desc desc2 : Option String) (stx stx2 : String)
    (hresp : responses r = .errBody "slow_down" desc stx)
    (ha : a < maxA - 1)
    (hresp2 : responses r2 = .errBody "slow_down" desc2 stx2)
    (hm : 0 < maxA) :
    pollLoop responses maxA interval (f + 1) a r s
      = pollLoop responses maxA interval f a (r + 1) s
    ∧ (pollLoop responses maxA interval (f + 1) a r s).interval = interval
    ∧ pollLoop responses maxA interval (f2 + 1) (maxA - 1) r2 s2
      = ⟨.authError ("Failed to obtain access token: " ++ jsOrStr desc2 stx2),
          r2 + 1, s2, interval, none⟩ := by
  have hinterval : ∀ (g att req : Nat) (sl : Int),
      (pollLoop responses maxA interval g att req sl).interval = interval := by
    intro g
    induction g with
    | zero => intro att req sl; rfl
    | succ g ih =>
      intro att req sl
      by_cases h1 : att < maxA
      · rcases hq : responses req with tok | ⟨e, d, st'⟩
        · simp [pollLoop, h1, hq]
        · by_cases h2 : e = "authorization_pending"
          · simp [pollLoop, h1, hq, h2, ih]
          · by_cases h3 : att = maxA - 1
            · simp only [pollLoop, if_pos h1, hq, if_neg h2, if_pos h3]
            · simp [pollLoop, h1, hq, h2, h3, ih]
      · simp [pollLoop, h1]
  refine ⟨?_, hinterval (f + 1) a r s, ?_⟩
  · have ha' : a < maxA := by omega
    have hne : ¬ a = maxA - 1 := by omega
    simp [pollLoop, ha', hresp, hne]
  · have ha' : maxA - 1 < maxA := by omega
    simp [pollLoop, ha', hresp2]

theorem pollLoop_slow_down_not_special_witness :
    pollLoop (fun _ => .errBody "slow_down" (some "slow down") "Forbidden")
        12 5000 (3 + 1) 0 0 0
      = pollLoop (fun _ => .errBody "slow_down" (some "slow down") "Forbidden")
          12 5000 3 0 1 0
    ∧ (pollLoop (fun _ => .errBody "slow_down" (some "slow down") "Forbidden")
        12 5000 (3 + 1) 0 0 0).interval = 5000
    ∧ pollLoop (fun _ => .errBody "slow_down" (some "slow down") "Forbidden")
        12 5000 (3 + 1) (12 - 1) 0 0
      = ⟨.authError ("Failed to obtain access token: "
          ++ jsOrStr (some "slow down") "Forbidden"), 1, 0, 5000, none⟩ :=
  pollLoop_slow_down_not_special
    (fun _ => .errBody "slow_down" (some "slow down") "Forbidden")
    12 5000 3 0 0 3 0 0 0 (some "slow down") (some "slow down")
    "Forbidden" "Forbidden" rfl (by decide) rfl (by decide)

end AutomatePR

namespace AutomatePR

/-- Outcome of `GitHubDeviceFlow.revoke`: the `github_token` secret after the
call, the number of revoke network calls issued, and the result (`.error msg`
is a thrown `PRAutomatorError("auth", msg)`). -/
structure RevokeOut where
  vaultAfter : Option String
  networkCalls : Nat
  result : Except String Unit
deriving Repr, DecidableEq

/-- `GitHubDeviceFlow.revoke` (`github-device-flow.ts`): reads the stored
secret; a JS-falsy value returns immediately (no network call, no error).
Otherwise one DELETE is issued (`serverOk` = `response.ok`, its `statusText`
given); on failure the thrown `Error` is wrapped as
`PRAutomatorError("auth", "Failed to revoke GitHub token: …")` and the
secret is NOT deleted; `vault.deleteSecret` runs only after a successful
response. -/
def revoke (vaultToken : Option String) (serverOk : Bool)
    (statusText : String) : RevokeOut :=
  if jsTruthyStr vaultToken then
    if serverOk then ⟨none, 1, .ok ()⟩
    else
      ⟨vaultToken, 1,
        .error ("Failed to revoke GitHub token: "
          ++ ("Failed to revoke token: " ++ statusText))⟩
  else ⟨vaultToken, 0, .ok ()⟩

/-- C8: with no stored token `revoke` makes no network call and does not
raise; a successful revoke clears the secret (so a second consecutive
`revoke` is a no-op with no network call); a failed revoke makes its one
network call, raises the auth error, and leaves the stored secret
unchanged. -/
theorem revoke_idempotent_and_safe (t : String) (serverOk b2 : Bool)
    (stx stx2 : String) (ht : ¬ t = "") :
    revoke none serverOk stx = ⟨none, 0, .ok ()⟩
    ∧ revoke (some t) true stx = ⟨none, 1, .ok ()⟩
    ∧ revoke (revoke (some t) true stx).vaultAfter b2 stx2 = ⟨none, 0, .ok ()⟩
    ∧ (revoke (some t) false stx).vaultAfter = some t
    ∧ (revoke (some t) false stx).networkCalls = 1
    ∧ (revoke (some t) false stx).result
        = .error ("Failed to revoke GitHub token: "
            ++ ("Failed to revoke token: " ++ stx)) := by
  refine ⟨by simp [revoke, jsTruthyStr], ?_, ?_, ?_, ?_, ?_⟩ <;>
    simp [revoke, jsTruthyStr, ht]

theorem revoke_idempotent_and_safe_witness :
    revoke none false "Bad" = ⟨none, 0, .ok ()⟩
    ∧ revoke (some "tok") true "Bad" = ⟨none, 1, .ok ()⟩
    ∧ revoke (revoke (some "tok") true "Bad").vaultAfter true "Bad2"
        = ⟨none, 0, .ok ()⟩
    ∧ (revoke (some "tok") false "Bad").vaultAfter = some "tok"
    ∧ (revoke (some "tok") false "Bad").networkCalls = 1
    ∧ (revoke (some "tok") false "Bad").result
        = .error ("Failed to revoke GitHub token: "
            ++ ("Failed to revoke token: " ++ "Bad")) :=
  revoke_idempotent_and_safe "tok" false true "Bad" "Bad2" (by decide)

end AutomatePR

namespace AutomatePR

/-! ## `TokenManager.executeRequest` and rate limiting (`token-manager.ts`) -/

/-- JS `String.prototype.includes`. -/
def strIncludes (s sub : String) : Bool := decide (sub.toList <:+: s.toList)

/-- `error?.response?.status` of an observed error (`undefined` for
`PRAutomatorError`, which has no `response`). -/
def errStatus : TMErr → Option Int
  | .js e => e.status
  | .pr _ _ => none

/-- `error?.message`. -/
def errMsg : TMErr → String
  | .js e => e.msg
  | .pr m _ => m

/-- `TokenManager.isRateLimitError`. -/
def isRateLimitError (e : TMErr) : Bool :=
  errStatus e == some 429 || strIncludes (errMsg e) "rate limit"

/-- `TokenManager.isAuthError`. -/
def isAuthError (e : TMErr) : Bool :=
  errStatus e == some 401 || strIncludes (errMsg e) "Unauthorized"

def TMErr.isPrError : TMErr → Bool
  | .pr _ _ => true
  | .js _ => false

/-- Record-level `getToken`: the vault read hands back the parsed record
directly (the JSON round trip through the vault string is modelled by
`getStoredTokenInfo`/`getToken` above and is not exercised by
`executeRequest`'s claims). -/
def getTokenR (refreshResp : Except Unit RefreshData) (now : Int)
    (vault : Option TokenInfo) : GetTokenOut :=
  getToken (fun _ => vault) refreshResp now (some "record")

/-- Mutable `TokenManager` state threaded through `executeRequest`, plus the
current clock (`now`); `vault` holds the parsed token record. -/
structure TMState where
  vault : Option TokenInfo
  rateLimitInfo : Option RateLimitInfo := none
  lastRequest : Int := 0
  backoffDelay : Int := DEFAULT_BACKOFF
  now : Int
deriving Repr, DecidableEq

/-- `TokenManager.waitForRateLimit`: first sleeps out the backoff gap
(`backoffDelay - (now - lastRequest)` when positive), then — with a quota
snapshot showing `remaining === 0` — additionally sleeps until
`reset * 1000` if that still lies in the future.  Returns total sleep and
the clock afterwards (the caller then sets `lastRequest = Date.now()`). -/
def waitForRateLimit (now lastRequest backoffDelay : Int)
    (rateLimitInfo : Option RateLimitInfo) : Int × Int :=
  let timeSinceLastRequest := now - lastRequest
  let w1 := if timeSinceLastRequest < backoffDelay
    then backoffDelay - timeSinceLastRequest else 0
  let now1 := now + w1
  let w2 :=
    match rateLimitInfo with
    | some info =>
      if info.remaining = 0 then
        let waitTime := info.reset * 1000 - now1
        if waitTime > 0 then waitTime else 0
      else 0
    | none => 0
  (w1 + w2, now1 + w2)

/-- `TokenManager.updateRateLimitInfo`: fetches the rate-limit endpoint with
a bearer token from an inner `getToken` (whose refresh side effects
persist), overwrites the in-memory snapshot on an ok response (`rlResp`),
and ignores every failure.  Returns the new state and the refresh calls made
by the inner `getToken`. -/
def updateRateLimitInfo (refreshResp : Except Unit RefreshData)
    (rlResp : Option RateLimitInfo) (st : TMState) : TMState × Nat :=
  let g := getTokenR refreshResp st.now st.vault
  let st' : TMState :=
    { st with vault := match g.stored with | some r => some r | none => st.vault }
  match g.result with
  | .error _ => (st', g.refreshCalls)
  | .ok _ =>
    match rlResp with
    | none => (st', g.refreshCalls)
    | some info => ({ st' with rateLimitInfo := some info }, g.refreshCalls)

/-- Observable outcome of `executeRequest`: result, final state, number of
invocations of the wrapped `request`, refresh network calls, total sleep. -/
structure ExecOut (α : Type) where
  result : Except TMErr α
  state : TMState
  fnCalls : Nat
  refreshCalls : Nat
  slept : Int

/-- The `catch` block of `TokenManager.executeRequest` applied to a thrown
error `e`: a rate-limit error doubles `backoffDelay` (no cap) and raises
`RATE_LIMIT "Rate limit exceeded"`; an auth error calls
`this.refreshToken()` (which re-reads the vault) and re-invokes the request
once with the refreshed token, returning that second outcome unwrapped; any
other error is rethrown unchanged.  `fnCalls` counts the request invocations
made before the catch, and indexes the retry. -/
def execCatch {α : Type} (refreshResps : Nat → Except Unit RefreshData)
    (fn : Nat → String → Except JsError α) (st : TMState)
    (refreshCalls fnCalls : Nat) (slept : Int) (e : TMErr) : ExecOut α :=
  if isRateLimitError e then
    ⟨.error (.pr "Rate limit exceeded" "RATE_LIMIT"),
      { st with backoffDelay := st.backoffDelay * 2 }, fnCalls, refreshCalls, slept⟩
  else if isAuthError e then
    let r := refreshToken (fun _ => st.vault) (refreshResps refreshCalls)
      st.now (some "record") none
    let st' : TMState :=
      { st with vault := match r.stored with | some rec => some rec | none => st.vault }
    match r.result with
    | .error e2 => ⟨.error e2, st', fnCalls, refreshCalls + r.refreshCalls, slept⟩
    | .ok token2 =>
      match fn fnCalls token2 with
      | .ok v => ⟨.ok v, st', fnCalls + 1, refreshCalls + r.refreshCalls, slept⟩
      | .error e2 =>
        ⟨.error (.js e2), st', fnCalls + 1, refreshCalls + r.refreshCalls, slept⟩
  else
    ⟨.error e, st, fnCalls, refreshCalls, slept⟩

/-- `TokenManager.executeRequest`: wait for the rate limit, get a token
(refresh side effects persist), invoke the request; on success reset the
backoff to `DEFAULT_BACKOFF` and refresh the quota snapshot; on any thrown
error run the `catch` (`execCatch`).  `fn n tok` is the `n`-th invocation of
the wrapped request with token `tok`; `refreshResps` are the refresh
endpoint's responses in order. -/
def executeRequest {α : Type} (refreshResps : Nat → Except Unit RefreshData)
    (rlResp : Option RateLimitInfo) (fn : Nat → String → Except JsError α)
    (st : TMState) : ExecOut α :=
  let w := waitForRateLimit st.now st.lastRequest st.backoffDelay st.rateLimitInfo
  let st1 : TMState := { st with now := w.2, lastRequest := w.2 }
  let g := getTokenR (refreshResps 0) st1.now st1.vault
  let st2 : TMState :=
    { st1 with vault := match g.stored with | some r => some r | none => st1.vault }
  match g.result with
  | .error e => execCatch refreshResps fn st2 g.refreshCalls 0 w.1 e
  | .ok token =>
    match fn 0 token with
    | .ok v =>
      let st3 : TMState := { st2 with backoffDelay := DEFAULT_BACKOFF }
      let p := updateRateLimitInfo (refreshResps g.refreshCalls) rlResp st3
      ⟨.ok v, p.1, 1, g.refreshCalls + p.2, w.1⟩
    | .error e => execCatch refreshResps fn st2 g.refreshCalls 1 w.1 (.js e)

/-- Modelled from the spec (§4.3, `RateLimitGovernor.waitDuration`), for
comparison with `waitForRateLimit`: "if `remaining == 0` and
`now < resetAt`, returns `resetAt - now`; otherwise returns
`max(0, backoffDelayMs - (now - lastRequestAt))`" — two exclusive
alternatives. -/
def waitDuration_spec (now lastRequestAt backoffDelayMs remaining resetAt : Int) :
    Int :=
  if remaining = 0 ∧ now < resetAt then resetAt - now
  else max 0 (backoffDelayMs - (now - lastRequestAt))

end AutomatePR

namespace AutomatePR

/-- C7 counterexample: with `remaining = 0`, `reset*1000 = 5000` still ahead
(`now = 0`), but a backoff gap of 10000 ms pending, the code waits 10000 ms
while the spec formula's first alternative says 5000 ms. -/
theorem waitForRateLimit_not_spec_formula_counterexample :
    (waitForRateLimit 0 0 10000 (some ⟨5000, 0, 5⟩)).1 = 10000
    ∧ waitDuration_spec 0 0 10000 0 5000 = 5000
    ∧ (10000 : Int) ≠ 5000 := by decide

/-- C7 amended: the wait performed before a gated request is
`max(0, backoffDelayMs - (now - lastRequestAt))` when there is no quota
snapshot or `remaining ≠ 0`; when `remaining = 0` it is the MAXIMUM of that
backoff wait and `resetAt - now` (the backoff sleep runs first and the loop
then tops up to `resetAt`), not an exclusive choice between the two. -/
theorem waitForRateLimit_wait_formula (now lastRequest backoff : Int)
    (info : RateLimitInfo) :
    (waitForRateLimit now lastRequest backoff (some info)).1
      = (if info.remaining = 0
          then max (max 0 (backoff - (now - lastRequest)))
            (info.reset * 1000 - now)
          else max 0 (backoff - (now - lastRequest)))
    ∧ (waitForRateLimit now lastRequest backoff none).1
      = max 0 (backoff - (now - lastRequest)) := by
  refine ⟨?_, ?_⟩ <;>
  · simp only [waitForRateLimit]
    split_ifs <;> (try simp) <;> omega

/-- `updateRateLimitInfo` never touches `backoffDelay`. -/
theorem updateRateLimitInfo_fst_backoffDelay (r : Except Unit RefreshData)
    (rl : Option RateLimitInfo) (st : TMState) :
    ((updateRateLimitInfo r rl st).1).backoffDelay = st.backoffDelay := by
  unfold updateRateLimitInfo
  rcases h : (getTokenR r st.now st.vault).result with e | t <;>
    rcases rl with _ | info <;> simp [h]

/-- C6 amended: the backoff transitions of `executeRequest` are: a caught
rate-limit error doubles `backoffDelay` with NO upper cap; a clean success
(no rate limit, no auth error) resets it to `DEFAULT_BACKOFF = 1000`; every
other caught error — including the whole 401 refresh-and-retry path — leaves
it unchanged; no other operation modifies it. -/
theorem executeRequest_backoff_transitions {α : Type}
    (refreshResps : Nat → Except Unit RefreshData)
    (rlResp : Option RateLimitInfo) (fn : Nat → String → Except JsError α)
    (st st' : TMState) (tok : String) (v : α) (e₁ e₂ : TMErr)
    (rc fc : Nat) (sl : Int)
    (h1 : isRateLimitError e₁ = true)
    (h2 : isRateLimitError e₂ = false)
    (hg : (getTokenR (refreshResps 0)
        (waitForRateLimit st.now st.lastRequest st.backoffDelay
          st.rateLimitInfo).2 st.vault).result = .ok tok)
    (hfn : fn 0 tok = .ok v) :
    (executeRequest refreshResps rlResp fn st).state.backoffDelay
      = DEFAULT_BACKOFF
    ∧ (execCatch refreshResps fn st' rc fc sl e₁).state.backoffDelay
      = st'.backoffDelay * 2
    ∧ (execCatch refreshResps fn st' rc fc sl e₂).state.backoffDelay
      = st'.backoffDelay := by
  refine ⟨?_, ?_, ?_⟩
  · simp only [executeRequest]
    simp [hg, hfn, updateRateLimitInfo_fst_backoffDelay]
  · simp [execCatch, h1]
  · simp only [execCatch, h2, Bool.false_eq_true, if_false]
    split_ifs with ha
    · rcases hr : (refreshToken (fun _ => st'.vault) (refreshResps rc)
          st'.now (some "record") none).result with e3 | t2
      · simp [hr]
      · rcases hf : fn fc t2 with v2 | e3 <;> simp [hr, hf]
    · rfl

/-- One `executeRequest` whose wrapped request always fails with HTTP 429,
against a non-expiring stored token. -/
def rateLimitedStep (st : TMState) : TMState :=
  (executeRequest (α := Unit) (fun _ => .error ()) none
    (fun _ _ => .error { status := some 429, msg := "rate limit exceeded" })
    st).state

/-- C6 counterexample: twenty consecutive rate-limited requests drive
`backoffDelay` to `1000 * 2^20` ms (≈ 12 days) — the doubling has no
`MAX_BACKOFF` cap. -/
theorem backoff_unbounded_counterexample :
    (rateLimitedStep^[20] { vault := some ⟨"tok", none, none⟩, now := 0 }).backoffDelay
      = 1048576000
    ∧ (1048576000 : Int) > 3600 * 1000 := by decide

end AutomatePR

namespace AutomatePR

/-- C2 amended: when the first invocation of the wrapped request fails with a
401-class (non-rate-limit) error against a valid stored token holding a
refresh token, `executeRequest` refreshes exactly once and re-invokes the
request exactly once more with the refreshed access token; the second
outcome is returned as-is — a success result directly, a second failure as
the raw underlying error, NOT wrapped as `AuthError(AUTH_RETRY_FAILED)`. -/
theorem executeRequest_401_refresh_retry {α : Type}
    (refreshResps : Nat → Except Unit RefreshData)
    (rlResp : Option RateLimitInfo) (fn : Nat → String → Except JsError α)
    (st : TMState) (tok : String) (e : JsError) (rd : RefreshData)
    (ti : TokenInfo)
    (hg : getTokenR (refreshResps 0)
        (waitForRateLimit st.now st.lastRequest st.backoffDelay
          st.rateLimitInfo).2 st.vault = ⟨.ok tok, none, 0⟩)
    (hfn : fn 0 tok = .error e)
    (hrl : isRateLimitError (.js e) = false)
    (hauth : isAuthError (.js e) = true)
    (hti : st.vault = some ti)
    (htr : jsTruthyStr ti.refresh_token = true)
    (href : refreshResps 0 = .ok rd) :
    (executeRequest refreshResps rlResp fn st).refreshCalls = 1
    ∧ (executeRequest refreshResps rlResp fn st).fnCalls = 2
    ∧ (executeRequest refreshResps rlResp fn st).result
        = (match fn 1 rd.access_token with
            | .ok v => .ok v
            | .error e2 => .error (.js e2)) := by
  have hcatch :
      executeRequest refreshResps rlResp fn st
        = execCatch refreshResps fn
            { st with
                now := (waitForRateLimit st.now st.lastRequest st.backoffDelay
                  st.rateLimitInfo).2
                lastRequest := (waitForRateLimit st.now st.lastRequest
                  st.backoffDelay st.rateLimitInfo).2 }
            0 1
            (waitForRateLimit st.now st.lastRequest st.backoffDelay
              st.rateLimitInfo).1 (.js e) := by
    simp only [executeRequest]
    rw [hg]
    simp [hfn]
  rw [hcatch]
  simp only [execCatch, hrl, Bool.false_eq_true, if_false, hauth, if_true]
  simp only [refreshToken, getStoredTokenInfo, hti, href]
  simp [htr]
  rcases hf : fn 1 rd.access_token with v | e2 <;> simp [hf]

/-- Request that fails with HTTP 401 on its first invocation and succeeds on
the retry. -/
def fn401ThenOk : Nat → String → Except JsError Nat
  | 0, _ => .error { status := some 401, msg := "Unauthorized" }
  | _ + 1, _ => .ok 7

/-- Manager state with a stored non-expiring token carrying a refresh token. -/
def c2State : TMState :=
  { vault := some ⟨"old", none, some "r"⟩, now := 0 }

theorem executeRequest_401_refresh_retry_witness :
    (executeRequest (fun _ => .ok ⟨"new", some 3600, some "r2"⟩) none
        fn401ThenOk c2State).refreshCalls = 1
    ∧ (executeRequest (fun _ => .ok ⟨"new", some 3600, some "r2"⟩) none
        fn401ThenOk c2State).fnCalls = 2
    ∧ (executeRequest (fun _ => .ok ⟨"new", some 3600, some "r2"⟩) none
        fn401ThenOk c2State).result
        = (match fn401ThenOk 1 "new" with
            | .ok v => .ok v
            | .error e2 => .error (.js e2)) :=
  executeRequest_401_refresh_retry (fun _ => .ok ⟨"new", some 3600, some "r2"⟩)
    none fn401ThenOk c2State "old" ⟨some 401, "Unauthorized"⟩
    ⟨"new", some 3600, some "r2"⟩ ⟨"old", none, some "r"⟩
    (by decide) rfl (by decide) (by decide) rfl (by decide) rfl

/-- Request that fails with HTTP 401 on every invocation. -/
def fnAlways401 : Nat → String → Except JsError Nat :=
  fun _ _ => .error { status := some 401, msg := "Unauthorized" }

/-- C2 counterexample: when the retried request fails again, the failure
propagates as the raw 401 error itself (a plain JS error, not any
`PRAutomatorError`), contradicting the claimed
`AuthError(AUTH_RETRY_FAILED)`; the request was still invoked exactly
twice with one refresh. -/
theorem executeRequest_second_401_unwrapped_counterexample :
    (executeRequest (fun _ => .ok ⟨"new", some 3600, some "r2"⟩) none
        fnAlways401 c2State).result
      = .error (.js ⟨some 401, "Unauthorized"⟩)
    ∧ (executeRequest (fun _ => .ok ⟨"new", some 3600, some "r2"⟩) none
        fnAlways401 c2State).fnCalls = 2
    ∧ (executeRequest (fun _ => .ok ⟨"new", some 3600, some "r2"⟩) none
        fnAlways401 c2State).refreshCalls = 1
    ∧ (match (executeRequest (fun _ => .ok ⟨"new", some 3600, some "r2"⟩) none
        fnAlways401 c2State).result with
        | .error er => er.isPrError
        | .ok _ => true) = false := by decide

end AutomatePR

namespace AutomatePR

/-- State with a stored non-expiring token and fresh backoff. -/
def c6State : TMState := { vault := some ⟨"tok", none, none⟩, now := 0 }

theorem executeRequest_backoff_transitions_witness :
    (executeRequest (α := Nat) (fun _ => .error ()) none (fun _ _ => .ok 5)
        c6State).state.backoffDelay = DEFAULT_BACKOFF
    ∧ (execCatch (α := Nat) (fun _ => .error ()) (fun _ _ => .ok 5) c2State 0 1 0
        (.js ⟨some 429, "too many"⟩)).state.backoffDelay
      = c2State.backoffDelay * 2
    ∧ (execCatch (α := Nat) (fun _ => .error ()) (fun _ _ => .ok 5) c2State 0 1 0
        (.js ⟨some 500, "boom"⟩)).state.backoffDelay
      = c2State.backoffDelay :=
  executeRequest_backoff_transitions (fun _ => .error ()) none (fun _ _ => .ok 5)
    c6State c2State "tok" 5 (.js ⟨some 429, "too many"⟩) (.js ⟨some 500, "boom"⟩)
    0 1 0 (by decide) (by decide) (by decide) rfl

end AutomatePR

namespace AutomatePR

/-! ## C1: two concurrent `getToken()` calls (single-flight refresh?)

`TokenManager` has no in-flight-refresh field: each `getToken()` that finds
the stored record inside the refresh window runs its own `refreshToken`.
The await points of the source split one call into three atomic segments:
(1) read the vault and decide (`getStoredTokenInfo` + `shouldRefreshToken` +
the `refresh_token` guard of `refreshToken`), (2) the refresh `fetch`
completes, (3) `storeToken` writes the vault and the new access token is
returned.  A schedule interleaves the segments of two callers; the refresh
endpoint answers the `n`-th refresh call (starting at 0) with
`server n`. -/

/-- Program counter of one in-flight `getToken()` call. -/
inductive CallerPhase where
  | start
  | fetching
  | storing (data : RefreshData)
  | done (result : Except TMErr String)
deriving Repr, DecidableEq

/-- Shared state: the vault record, the number of refresh network calls so
far, and each caller's phase. -/
structure SFState where
  vault : Option TokenInfo
  refreshCalls : Nat
  a : CallerPhase
  b : CallerPhase
deriving Repr, DecidableEq

/-- One atomic segment of `getToken()` (source semantics of
`getToken`/`shouldRefreshToken`/`refreshToken`/`storeToken`):
`start`: read the record — absent ⇒ the no-token error; not in the refresh
window ⇒ return the stored token; in the window without truthy
`refresh_token` ⇒ the no-refresh-token error; otherwise proceed to the
fetch.  `fetching`: the refresh call completes (calls counted globally).
`storing`: `storeToken` overwrites the vault and the new token is
returned. -/
def callerStep (server : Nat → RefreshData) (now : Int)
    (vault : Option TokenInfo) (refreshCalls : Nat) (pc : CallerPhase) :
    Option TokenInfo × Nat × CallerPhase :=
  match pc with
  | .start =>
    match vault with
    | none =>
      (vault, refreshCalls,
        .done (.error (.pr "No token available" "AUTH_ERROR")))
    | some ti =>
      if shouldRefreshToken now ti then
        if jsTruthyStr ti.refresh_token then (vault, refreshCalls, .fetching)
        else
          (vault, refreshCalls,
            .done (.error (.pr "No refresh token available" "AUTH_ERROR")))
      else (vault, refreshCalls, .done (.ok ti.access_token))
  | .fetching => (vault, refreshCalls + 1, .storing (server refreshCalls))
  | .storing data =>
    (some (storeToken now data.access_token data.expires_in data.refresh_token),
      refreshCalls, .done (.ok data.access_token))
  | .done r => (vault, refreshCalls, .done r)

/-- Run one scheduled segment (`false` = caller A, `true` = caller B). -/
def sfStep (server : Nat → RefreshData) (now : Int) (who : Bool)
    (st : SFState) : SFState :=
  if who then
    let (v, c, pc) := callerStep server now st.vault st.refreshCalls st.b
    { st with vault := v, refreshCalls := c, b := pc }
  else
    let (v, c, pc) := callerStep server now st.vault st.refreshCalls st.a
    { st with vault := v, refreshCalls := c, a := pc }

/-- Run a whole schedule. -/
def sfRun (server : Nat → RefreshData) (now : Int) (sched : List Bool)
    (st : SFState) : SFState :=
  sched.foldl (fun s w => sfStep server now w s) st

/-- Refresh endpoint issuing a distinct rotated token per call. -/
def sfServer : Nat → RefreshData
  | n => ⟨"t" ++ toString n, some 3600, some ("r" ++ toString n)⟩

/-- Both callers start with a stored token 60 s from expiry (inside the
5-minute refresh window) that carries a refresh token. -/
def sfInit : SFState :=
  ⟨some ⟨"old", some 60000, some "r"⟩, 0, .start, .start⟩

/-- C1 counterexample: with the stored token inside the refresh window, the
racing interleaving — both callers pass the refresh check while neither
refresh has completed, exactly the "concurrent callers" of the claim —
performs TWO network refresh calls, not one, and the callers receive
DIFFERENT access tokens ("t0" and "t1"). -/
theorem getToken_concurrent_two_refreshes_counterexample :
    (sfRun sfServer 0 [false, true, false, false, true, true] sfInit).refreshCalls
      = 2
    ∧ (sfRun sfServer 0 [false, true, false, false, true, true] sfInit).a
      = .done (.ok "t0")
    ∧ (sfRun sfServer 0 [false, true, false, false, true, true] sfInit).b
      = .done (.ok "t1")
    ∧ ¬ ("t0" = "t1") := by decide

/-- C1 amended: there is no single-flight guard.  Each concurrent
`getToken()` that passes the refresh-window check before any refresh has
committed issues its own network refresh call: under the racing
interleaving two refresh calls are made and the callers obtain different
rotated access tokens; only when one caller's refresh commits before the
other reads the store does a single refresh occur, with both callers then
returning that refresh's token. -/
theorem getToken_concurrent_no_single_flight :
    ((sfRun sfServer 0 [false, true, false, false, true, true] sfInit).refreshCalls
        = 2
      ∧ (sfRun sfServer 0 [false, true, false, false, true, true] sfInit).a
        = .done (.ok "t0")
      ∧ (sfRun sfServer 0 [false, true, false, false, true, true] sfInit).b
        = .done (.ok "t1"))
    ∧ ((sfRun sfServer 0 [false, false, false, true, true, true] sfInit).refreshCalls
        = 1
      ∧ (sfRun sfServer 0 [false, false, false, true, true, true] sfInit).a
        = .done (.ok "t0")
      ∧ (sfRun sfServer 0 [false, false, false, true, true, true] sfInit).b
        = .done (.ok "t0")) := by decide

end AutomatePR
